import Mathlib

/-!
Verification of the smbfs file-operations adapter
(`src/vfs/smbfs/file.c` of Midnight Commander).

The six operations `smbfs_file_open`, `smbfs_file_read`, `smbfs_file_close`,
`smbfs_file_stat`, `smbfs_file_write`, `smbfs_file_lseek` are embedded as
pure Lean functions.  The external collaborators (libsmbclient primitives,
`smbfs_strerror`, URL construction) are parameters collected in a
`ProtocolClient` record; each primitive receives the ambient `errno`
value that is current when it is invoked and returns its result code
together with the `errno` value it leaves behind, which models the
errno-style ambient error channel of the C code.  Each operation's
outcome record carries the function return value, the file handler after
the call, the `GError` produced (if any), the ambient `errno` after the
call, and the number of protocol-primitive invocations the call made
(`smbc_calls`), so that "no network call is made" is a provable
statement.
-/

namespace Smbfs

/-- GLib error record as used by `g_set_error` in the C code: an error
domain (the `MC_ERROR` quark in this file), a numeric code and a
human-readable message. -/
structure GError where
  domain : Nat
  code : Int
  message : String
deriving DecidableEq

/-- The `MC_ERROR` error-domain quark.  It is an opaque constant defined
outside this file; every `g_set_error` call in `file.c` uses it, so only
its identity matters and it is modelled as a fixed tag. -/
def MC_ERROR : Nat := 0

/-- `smbfs_file_handler_data_t` from `file.c`: the adapter-owned backend
state, wrapping exactly one numeric libsmbclient handle. -/
structure smbfs_file_handler_data_t where
  handle : Int
deriving DecidableEq

/-- The fields of `vfs_file_handler_t` that `file.c` uses: the tracked
byte position `pos` and the opaque backend payload `data` (a possibly
null pointer to an `smbfs_file_handler_data_t`). -/
structure vfs_file_handler_t where
  pos : Int
  data : Option smbfs_file_handler_data_t
deriving DecidableEq

/-- The external collaborators of the adapter: the libsmbclient
primitives and the error-formatting helper `smbfs_strerror`.  Each
primitive takes its C arguments plus the ambient `errno` at call time,
and returns its C result together with the `errno` value after it
returns (plus any out-parameter it fills: the read buffer for
`smbc_read`, the stat record for `smbc_fstat`).  `buf` is the type of
I/O buffer contents and `stat` the type of stat records; both are
opaque to the adapter. -/
structure ProtocolClient (buf stat : Type) where
  /-- `smbc_open (url, flags, mode)`: numeric handle or negative. -/
  smbc_open : String → Int → Int → Int → Int × Int
  /-- `smbc_read (handle, buffer, count)`: bytes read or negative,
  and the buffer contents written. -/
  smbc_read : Int → Nat → Int → Int × Int × buf
  /-- `smbc_write (handle, buffer, count)`: bytes written or negative. -/
  smbc_write : Int → buf → Nat → Int → Int × Int
  /-- `smbc_lseek (handle, offset, whence)`: resulting offset, or -1. -/
  smbc_lseek : Int → Int → Int → Int → Int × Int
  /-- `smbc_fstat (handle, st)`: zero or negative, and the stat record
  it fills. -/
  smbc_fstat : Int → Int → Int × Int × stat
  /-- `smbc_close (handle)`: zero or negative. -/
  smbc_close : Int → Int → Int × Int
  /-- `smbfs_strerror (errnum)`: backend-rendered description of an OS
  error code. -/
  smbfs_strerror : Int → String

/-- The literal message of `smbfs_file_read`'s missing-handler error. -/
def readContractMsg : String :=
  "smbfs: No file handler data present for reading file"

/-- The literal message of `smbfs_file_close`'s missing-handler error. -/
def closeContractMsg : String :=
  "smbfs: No file handler data present for closing file"

/-- The literal message of `smbfs_file_stat`'s missing-handler error. -/
def statContractMsg : String :=
  "smbfs: No file handler data present for fstat file"

/-- The literal message of `smbfs_file_write`'s missing-handler error
(as written in `file.c`, it mentions fstat). -/
def writeContractMsg : String :=
  "smbfs: No file handler data present for fstat file"

/-- The literal message of `smbfs_file_lseek`'s missing-handler error
(as written in `file.c`, it mentions fstat). -/
def lseekContractMsg : String :=
  "smbfs: No file handler data present for fstat file"

/-- Outcome of `smbfs_file_open`. -/
structure OpenResult where
  /-- the returned pointer: the freshly allocated handler data, or null -/
  ret : Option smbfs_file_handler_data_t
  /-- the `GError` set through the out parameter, if any -/
  err : Option GError
  /-- ambient `errno` after the call -/
  errno : Int
  /-- number of protocol-primitive invocations made by the call -/
  smbc_calls : Nat
deriving DecidableEq

/-- Outcome of `smbfs_file_read`. -/
structure ReadResult (buf : Type) where
  /-- the `ssize_t` function return value -/
  ret : Int
  /-- the file handler after the call -/
  file_handler : Option vfs_file_handler_t
  /-- the `GError` set through the out parameter, if any -/
  err : Option GError
  /-- ambient `errno` after the call -/
  errno : Int
  /-- number of protocol-primitive invocations made by the call -/
  smbc_calls : Nat
  /-- the caller-supplied buffer contents after the call (`none` when
  the primitive was never invoked and the buffer is untouched) -/
  buffer : Option buf
deriving DecidableEq

/-- Outcome of `smbfs_file_write`. -/
structure WriteResult where
  /-- the `ssize_t` function return value -/
  ret : Int
  /-- the file handler after the call -/
  file_handler : Option vfs_file_handler_t
  /-- the `GError` set through the out parameter, if any -/
  err : Option GError
  /-- ambient `errno` after the call -/
  errno : Int
  /-- number of protocol-primitive invocations made by the call -/
  smbc_calls : Nat
deriving DecidableEq

/-- Outcome of `smbfs_file_lseek`. -/
structure LseekResult where
  /-- the `off_t` function return value -/
  ret : Int
  /-- the file handler after the call -/
  file_handler : Option vfs_file_handler_t
  /-- the `GError` set through the out parameter, if any -/
  err : Option GError
  /-- ambient `errno` after the call -/
  errno : Int
  /-- number of protocol-primitive invocations made by the call -/
  smbc_calls : Nat
deriving DecidableEq

/-- Outcome of `smbfs_file_stat`. -/
structure StatResult (stat : Type) where
  /-- the `int` function return value -/
  ret : Int
  /-- the file handler after the call -/
  file_handler : Option vfs_file_handler_t
  /-- the `GError` set through the out parameter, if any -/
  err : Option GError
  /-- ambient `errno` after the call -/
  errno : Int
  /-- number of protocol-primitive invocations made by the call -/
  smbc_calls : Nat
  /-- the caller-supplied stat record after the call (`none` when the
  primitive was never invoked and the record is untouched) -/
  buf : Option stat
deriving DecidableEq

/-- Outcome of `smbfs_file_close`. -/
structure CloseResult where
  /-- the `int` function return value -/
  ret : Int
  /-- the file handler after the call -/
  file_handler : Option vfs_file_handler_t
  /-- the `GError` set through the out parameter, if any -/
  err : Option GError
  /-- ambient `errno` after the call -/
  errno : Int
  /-- number of protocol-primitive invocations made by the call -/
  smbc_calls : Nat
  /-- whether the call executed `g_free` on the backend state -/
  freed : Bool
deriving DecidableEq

set_option linter.unusedVariables false in
/-- `smbfs_file_open` from `file.c`.  `smb_url` is the backend address
produced by `smbfs_make_url` on the resolved path element; it is passed
here already resolved, since path resolution is external to this file.
The C code sets `errno = 0`, invokes `smbc_open (smb_url, flags, mode)`,
frees the transient URL string, and then: on a non-negative handle it
allocates a fresh `smbfs_file_handler_data_t` wrapping the handle and
returns it; on a negative handle it sets a `(MC_ERROR, errno,
smbfs_strerror (errno))` error and returns null. -/
def smbfs_file_open {buf stat : Type} (C : ProtocolClient buf stat)
    (smb_url : String) (flags : Int) (mode : Int) (errno0 : Int) : OpenResult :=
  let r := C.smbc_open smb_url flags mode 0
  let handle := r.1
  let e := r.2
  if handle ≥ 0 then
    { ret := some { handle := handle }, err := none, errno := e, smbc_calls := 1 }
  else
    { ret := none,
      err := some { domain := MC_ERROR, code := e, message := C.smbfs_strerror e },
      errno := e, smbc_calls := 1 }

/-- `smbfs_file_read` from `file.c`.  If the handler or its `data` field
is null it sets a `(MC_ERROR, -1, readContractMsg)` error and returns -1
without touching the protocol.  Otherwise it sets `errno = 0`, invokes
`smbc_read`; on `rc < 0` it sets a `(MC_ERROR, errno, smbfs_strerror
(errno))` error, else it advances `file_handler->pos` by `rc`; either
way it returns `rc`. -/
def smbfs_file_read {buf stat : Type} (C : ProtocolClient buf stat)
    (file_handler : Option vfs_file_handler_t) (count : Nat) (errno0 : Int) :
    ReadResult buf :=
  match file_handler with
  | none =>
      { ret := -1, file_handler := none,
        err := some { domain := MC_ERROR, code := -1, message := readContractMsg },
        errno := errno0, smbc_calls := 0, buffer := none }
  | some fh =>
    match fh.data with
    | none =>
        { ret := -1, file_handler := some fh,
          err := some { domain := MC_ERROR, code := -1, message := readContractMsg },
          errno := errno0, smbc_calls := 0, buffer := none }
    | some fhd =>
      let r := C.smbc_read fhd.handle count 0
      let rc := r.1
      let e := r.2.1
      if rc < 0 then
        { ret := rc, file_handler := some fh,
          err := some { domain := MC_ERROR, code := e, message := C.smbfs_strerror e },
          errno := e, smbc_calls := 1, buffer := some r.2.2 }
      else
        { ret := rc, file_handler := some { fh with pos := fh.pos + rc },
          err := none, errno := e, smbc_calls := 1, buffer := some r.2.2 }

/-- `smbfs_file_close` from `file.c`.  If the handler or its `data`
field is null it sets a `(MC_ERROR, -1, closeContractMsg)` error and
returns -1 without touching the protocol.  Otherwise it sets
`errno = 0`, invokes `smbc_close`; on `rc < 0` it sets a `(MC_ERROR,
errno, smbfs_strerror (errno))` error and does not free, else it frees
the handler data; either way it returns `rc`. -/
def smbfs_file_close {buf stat : Type} (C : ProtocolClient buf stat)
    (file_handler : Option vfs_file_handler_t) (errno0 : Int) : CloseResult :=
  match file_handler with
  | none =>
      { ret := -1, file_handler := none,
        err := some { domain := MC_ERROR, code := -1, message := closeContractMsg },
        errno := errno0, smbc_calls := 0, freed := false }
  | some fh =>
    match fh.data with
    | none =>
        { ret := -1, file_handler := some fh,
          err := some { domain := MC_ERROR, code := -1, message := closeContractMsg },
          errno := errno0, smbc_calls := 0, freed := false }
    | some fhd =>
      let r := C.smbc_close fhd.handle 0
      let rc := r.1
      let e := r.2
      if rc < 0 then
        { ret := rc, file_handler := some fh,
          err := some { domain := MC_ERROR, code := e, message := C.smbfs_strerror e },
          errno := e, smbc_calls := 1, freed := false }
      else
        { ret := rc, file_handler := some fh,
          err := none, errno := e, smbc_calls := 1, freed := true }

/-- `smbfs_file_stat` from `file.c`.  If the handler or its `data` field
is null it sets a `(MC_ERROR, -1, statContractMsg)` error and returns -1
without touching the protocol.  Otherwise it sets `errno = 0`, invokes
`smbc_fstat`; on `rc < 0` it sets a `(MC_ERROR, errno, smbfs_strerror
(errno))` error; either way it returns `rc` and never touches `pos`. -/
def smbfs_file_stat {buf stat : Type} (C : ProtocolClient buf stat)
    (file_handler : Option vfs_file_handler_t) (errno0 : Int) : StatResult stat :=
  match file_handler with
  | none =>
      { ret := -1, file_handler := none,
        err := some { domain := MC_ERROR, code := -1, message := statContractMsg },
        errno := errno0, smbc_calls := 0, buf := none }
  | some fh =>
    match fh.data with
    | none =>
        { ret := -1, file_handler := some fh,
          err := some { domain := MC_ERROR, code := -1, message := statContractMsg },
          errno := errno0, smbc_calls := 0, buf := none }
    | some fhd =>
      let r := C.smbc_fstat fhd.handle 0
      let rc := r.1
      let e := r.2.1
      if rc < 0 then
        { ret := rc, file_handler := some fh,
          err := some { domain := MC_ERROR, code := e, message := C.smbfs_strerror e },
          errno := e, smbc_calls := 1, buf := some r.2.2 }
      else
        { ret := rc, file_handler := some fh,
          err := none, errno := e, smbc_calls := 1, buf := some r.2.2 }

/-- `smbfs_file_write` from `file.c`.  If the handler or its `data`
field is null it sets a `(MC_ERROR, -1, writeContractMsg)` error and
returns -1 without touching the protocol.  Otherwise it sets
`errno = 0`, invokes `smbc_write`; on `rc < 0` it sets a `(MC_ERROR,
errno, smbfs_strerror (errno))` error; either way it returns `rc`.
Unlike read, a successful write does not change `file_handler->pos`. -/
def smbfs_file_write {buf stat : Type} (C : ProtocolClient buf stat)
    (file_handler : Option vfs_file_handler_t) (buffer : buf) (count : Nat)
    (errno0 : Int) : WriteResult :=
  match file_handler with
  | none =>
      { ret := -1, file_handler := none,
        err := some { domain := MC_ERROR, code := -1, message := writeContractMsg },
        errno := errno0, smbc_calls := 0 }
  | some fh =>
    match fh.data with
    | none =>
        { ret := -1, file_handler := some fh,
          err := some { domain := MC_ERROR, code := -1, message := writeContractMsg },
          errno := errno0, smbc_calls := 0 }
    | some fhd =>
      let r := C.smbc_write fhd.handle buffer count 0
      let rc := r.1
      let e := r.2
      if rc < 0 then
        { ret := rc, file_handler := some fh,
          err := some { domain := MC_ERROR, code := e, message := C.smbfs_strerror e },
          errno := e, smbc_calls := 1 }
      else
        { ret := rc, file_handler := some fh,
          err := none, errno := e, smbc_calls := 1 }

/-- `smbfs_file_lseek` from `file.c`.  If the handler or its `data`
field is null it sets a `(MC_ERROR, -1, lseekContractMsg)` error and
returns -1 without touching the protocol.  Otherwise it sets
`errno = 0`, invokes `smbc_lseek`; when `rc == -1` it sets a
`(MC_ERROR, errno, smbfs_strerror (errno))` error, else it assigns
`file_handler->pos = rc`; either way it returns `rc`. -/
def smbfs_file_lseek {buf stat : Type} (C : ProtocolClient buf stat)
    (file_handler : Option vfs_file_handler_t) (offset : Int) (whence : Int)
    (errno0 : Int) : LseekResult :=
  match file_handler with
  | none =>
      { ret := -1, file_handler := none,
        err := some { domain := MC_ERROR, code := -1, message := lseekContractMsg },
        errno := errno0, smbc_calls := 0 }
  | some fh =>
    match fh.data with
    | none =>
        { ret := -1, file_handler := some fh,
          err := some { domain := MC_ERROR, code := -1, message := lseekContractMsg },
          errno := errno0, smbc_calls := 0 }
    | some fhd =>
      let r := C.smbc_lseek fhd.handle offset whence 0
      let rc := r.1
      let e := r.2
      if rc = -1 then
        { ret := rc, file_handler := some fh,
          err := some { domain := MC_ERROR, code := e, message := C.smbfs_strerror e },
          errno := e, smbc_calls := 1 }
      else
        { ret := rc, file_handler := some { fh with pos := rc },
          err := none, errno := e, smbc_calls := 1 }

/-! Concrete protocol clients used to evaluate the operations on
specific inputs. -/

/-- A client whose primitives all succeed: open yields handle 3, read
returns 2 bytes, write returns 2 bytes, lseek lands on offset 7,
fstat and close return 0, and no primitive disturbs `errno`. -/
def okClient : ProtocolClient Unit Unit where
  smbc_open := fun _ _ _ _ => (3, 0)
  smbc_read := fun _ _ _ => (2, 0, ())
  smbc_write := fun _ _ _ _ => (2, 0)
  smbc_lseek := fun _ _ _ _ => (7, 0)
  smbc_fstat := fun _ _ => (0, 0, ())
  smbc_close := fun _ _ => (0, 0)
  smbfs_strerror := fun _ => ""

/-- A client whose primitives all fail with result -1, leaving
`errno` = 13 (EACCES). -/
def failClient : ProtocolClient Unit Unit where
  smbc_open := fun _ _ _ _ => (-1, 13)
  smbc_read := fun _ _ _ => (-1, 13, ())
  smbc_write := fun _ _ _ _ => (-1, 13)
  smbc_lseek := fun _ _ _ _ => (-1, 13)
  smbc_fstat := fun _ _ => (-1, 13, ())
  smbc_close := fun _ _ => (-1, 13)
  smbfs_strerror := fun _ => "Permission denied"

/-- A file handler with position 10 and backend handle 3. -/
def fhOk : vfs_file_handler_t := { pos := 10, data := some { handle := 3 } }

/-- A file handler whose backend state pointer is null. -/
def fhNull : vfs_file_handler_t := { pos := 10, data := none }

/-- C1: for every handle with non-null backend state, when the protocol
read primitive returns `rc ≥ 0`, `smbfs_file_read` returns `rc` and
advances `pos` by exactly `rc`, with no error; in particular a read of 0
bytes leaves the position unchanged and produces no error. -/
theorem smbfs_read_success_advances_position {buf stat : Type}
    (C : ProtocolClient buf stat) (fh : vfs_file_handler_t)
    (fhd : smbfs_file_handler_data_t) (count : Nat) (errno0 : Int)
    (hdata : fh.data = some fhd)
    (hrc : 0 ≤ (C.smbc_read fhd.handle count 0).1) :
    (smbfs_file_read C (some fh) count errno0).ret =
        (C.smbc_read fhd.handle count 0).1 ∧
    (smbfs_file_read C (some fh) count errno0).file_handler =
        some { fh with pos := fh.pos + (C.smbc_read fhd.handle count 0).1 } ∧
    (smbfs_file_read C (some fh) count errno0).err = none ∧
    ((C.smbc_read fhd.handle count 0).1 = 0 →
      (smbfs_file_read C (some fh) count errno0).file_handler = some fh) := by
  obtain ⟨p, d⟩ := fh
  dsimp only at hdata
  subst hdata
  simp only [smbfs_file_read]
  rw [if_neg (not_lt.mpr hrc)]
  refine ⟨rfl, rfl, rfl, fun h0 => ?_⟩
  simp [h0]

/-- Witness for C1: the success-path read on a concrete client. -/
theorem smbfs_read_success_advances_position_witness :
    fhOk.data = some { handle := 3 } ∧
    0 ≤ (okClient.smbc_read 3 5 0).1 ∧
    (smbfs_file_read okClient (some fhOk) 5 7).ret = (okClient.smbc_read 3 5 0).1 ∧
    (smbfs_file_read okClient (some fhOk) 5 7).file_handler =
        some { fhOk with pos := fhOk.pos + (okClient.smbc_read 3 5 0).1 } ∧
    (smbfs_file_read okClient (some fhOk) 5 7).err = none := by
  have h :=
    smbfs_read_success_advances_position okClient fhOk { handle := 3 } 5 7 rfl (by decide)
  exact ⟨rfl, by decide, h.1, h.2.1, h.2.2.1⟩

/-- C2: for every handle with non-null backend state, a successful write
(protocol write primitive returns `rc ≥ 0`) leaves the handler — in
particular its `pos` field — unchanged and produces no error; only the
bytes-written count is returned. -/
theorem smbfs_write_success_preserves_position {buf stat : Type}
    (C : ProtocolClient buf stat) (fh : vfs_file_handler_t)
    (fhd : smbfs_file_handler_data_t) (buffer : buf) (count : Nat) (errno0 : Int)
    (hdata : fh.data = some fhd)
    (hrc : 0 ≤ (C.smbc_write fhd.handle buffer count 0).1) :
    (smbfs_file_write C (some fh) buffer count errno0).ret =
        (C.smbc_write fhd.handle buffer count 0).1 ∧
    (smbfs_file_write C (some fh) buffer count errno0).file_handler = some fh ∧
    (smbfs_file_write C (some fh) buffer count errno0).err = none := by
  obtain ⟨p, d⟩ := fh
  dsimp only at hdata
  subst hdata
  simp only [smbfs_file_write]
  rw [if_neg (not_lt.mpr hrc)]
  exact ⟨rfl, rfl, rfl⟩

/-- Witness for C2: the success-path write on a concrete client. -/
theorem smbfs_write_success_preserves_position_witness :
    fhOk.data = some { handle := 3 } ∧
    0 ≤ (okClient.smbc_write 3 () 5 0).1 ∧
    ((smbfs_file_write okClient (some fhOk) () 5 7).ret =
        (okClient.smbc_write 3 () 5 0).1 ∧
     (smbfs_file_write okClient (some fhOk) () 5 7).file_handler = some fhOk ∧
     (smbfs_file_write okClient (some fhOk) () 5 7).err = none) :=
  ⟨rfl, by decide,
   smbfs_write_success_preserves_position okClient fhOk { handle := 3 } () 5 7 rfl
     (by decide)⟩

/-- C9: for every handle with non-null backend state, when the protocol
read primitive returns a negative value, `smbfs_file_read` produces an
error whose code is the OS error value current after the failing return,
and the handler — in particular its `pos` field — is left unchanged. -/
theorem smbfs_read_failure_preserves_position {buf stat : Type}
    (C : ProtocolClient buf stat) (fh : vfs_file_handler_t)
    (fhd : smbfs_file_handler_data_t) (count : Nat) (errno0 : Int)
    (hdata : fh.data = some fhd)
    (hrc : (C.smbc_read fhd.handle count 0).1 < 0) :
    (smbfs_file_read C (some fh) count errno0).err =
      some { domain := MC_ERROR, code := (C.smbc_read fhd.handle count 0).2.1,
             message := C.smbfs_strerror ((C.smbc_read fhd.handle count 0).2.1) } ∧
    (smbfs_file_read C (some fh) count errno0).file_handler = some fh ∧
    (smbfs_file_read C (some fh) count errno0).ret =
        (C.smbc_read fhd.handle count 0).1 := by
  obtain ⟨p, d⟩ := fh
  dsimp only at hdata
  subst hdata
  simp only [smbfs_file_read]
  rw [if_pos hrc]
  exact ⟨rfl, rfl, rfl⟩

/-- Witness for C9: the failure-path read on a concrete client. -/
theorem smbfs_read_failure_preserves_position_witness :
    fhOk.data = some { handle := 3 } ∧
    (failClient.smbc_read 3 5 0).1 < 0 ∧
    ((smbfs_file_read failClient (some fhOk) 5 7).err =
      some { domain := MC_ERROR, code := (failClient.smbc_read 3 5 0).2.1,
             message := failClient.smbfs_strerror ((failClient.smbc_read 3 5 0).2.1) } ∧
     (smbfs_file_read failClient (some fhOk) 5 7).file_handler = some fhOk ∧
     (smbfs_file_read failClient (some fhOk) 5 7).ret =
        (failClient.smbc_read 3 5 0).1) :=
  ⟨rfl, by decide,
   smbfs_read_failure_preserves_position failClient fhOk { handle := 3 } 5 7 rfl
     (by decide)⟩

/-- C5: for every handle with non-null backend state, when the protocol
seek primitive returns a value different from the sentinel failure value
-1, `smbfs_file_lseek` sets `pos` to that returned absolute offset and
returns it with no error; when the primitive returns -1, it produces an
error whose code is the OS error value current after the failing return
and `pos` is unchanged. -/
theorem smbfs_lseek_sets_position {buf stat : Type}
    (C : ProtocolClient buf stat) (fh : vfs_file_handler_t)
    (fhd : smbfs_file_handler_data_t) (offset whence errno0 : Int)
    (hdata : fh.data = some fhd) :
    ((C.smbc_lseek fhd.handle offset whence 0).1 ≠ -1 →
      (smbfs_file_lseek C (some fh) offset whence errno0).file_handler =
          some { fh with pos := (C.smbc_lseek fhd.handle offset whence 0).1 } ∧
      (smbfs_file_lseek C (some fh) offset whence errno0).ret =
          (C.smbc_lseek fhd.handle offset whence 0).1 ∧
      (smbfs_file_lseek C (some fh) offset whence errno0).err = none) ∧
    ((C.smbc_lseek fhd.handle offset whence 0).1 = -1 →
      (smbfs_file_lseek C (some fh) offset whence errno0).err =
        some { domain := MC_ERROR, code := (C.smbc_lseek fhd.handle offset whence 0).2,
               message := C.smbfs_strerror ((C.smbc_lseek fhd.handle offset whence 0).2) } ∧
      (smbfs_file_lseek C (some fh) offset whence errno0).file_handler = some fh) := by
  obtain ⟨p, d⟩ := fh
  dsimp only at hdata
  subst hdata
  simp only [smbfs_file_lseek]
  constructor
  · intro hne
    rw [if_neg hne]
    exact ⟨rfl, rfl, rfl⟩
  · intro heq
    rw [if_pos heq]
    exact ⟨rfl, rfl⟩

/-- Witness for C5: both branches of seek on concrete clients. -/
theorem smbfs_lseek_sets_position_witness :
    fhOk.data = some { handle := 3 } ∧
    (smbfs_file_lseek okClient (some fhOk) 7 0 9).file_handler =
        some { fhOk with pos := (okClient.smbc_lseek 3 7 0 0).1 } ∧
    (smbfs_file_lseek okClient (some fhOk) 7 0 9).ret =
        (okClient.smbc_lseek 3 7 0 0).1 ∧
    (smbfs_file_lseek okClient (some fhOk) 7 0 9).err = none ∧
    (smbfs_file_lseek failClient (some fhOk) 7 0 9).err =
        some { domain := MC_ERROR, code := (failClient.smbc_lseek 3 7 0 0).2,
               message := failClient.smbfs_strerror ((failClient.smbc_lseek 3 7 0 0).2) } ∧
    (smbfs_file_lseek failClient (some fhOk) 7 0 9).file_handler = some fhOk := by
  have hok :=
    (smbfs_lseek_sets_position okClient fhOk { handle := 3 } 7 0 9 rfl).1 (by decide)
  have hfail :=
    (smbfs_lseek_sets_position failClient fhOk { handle := 3 } 7 0 9 rfl).2 (by decide)
  exact ⟨rfl, hok.1, hok.2.1, hok.2.2, hfail.1, hfail.2⟩

/-- C3: for each of the five handle-taking operations, if the handler is
null or its backend state is null, the operation returns -1 with an
error whose code is the sentinel -1 (a negative value, hence not an OS
errno, which is positive) under the `MC_ERROR` domain, makes zero
protocol-primitive calls, and changes no other state: the handler, the
ambient `errno`, the caller's buffers and the allocation status are all
untouched. -/
theorem smbfs_contract_error_no_protocol_call {buf stat : Type}
    (C : ProtocolClient buf stat) (fh : Option vfs_file_handler_t)
    (buffer : buf) (count : Nat) (offset whence errno0 : Int)
    (hnull : ∀ h, fh = some h → h.data = none) :
    ((smbfs_file_read C fh count errno0).ret = -1 ∧
     (smbfs_file_read C fh count errno0).err =
        some { domain := MC_ERROR, code := -1, message := readContractMsg } ∧
     (smbfs_file_read C fh count errno0).smbc_calls = 0 ∧
     (smbfs_file_read C fh count errno0).file_handler = fh ∧
     (smbfs_file_read C fh count errno0).errno = errno0 ∧
     (smbfs_file_read C fh count errno0).buffer = none) ∧
    ((smbfs_file_write C fh buffer count errno0).ret = -1 ∧
     (smbfs_file_write C fh buffer count errno0).err =
        some { domain := MC_ERROR, code := -1, message := writeContractMsg } ∧
     (smbfs_file_write C fh buffer count errno0).smbc_calls = 0 ∧
     (smbfs_file_write C fh buffer count errno0).file_handler = fh ∧
     (smbfs_file_write C fh buffer count errno0).errno = errno0) ∧
    ((smbfs_file_lseek C fh offset whence errno0).ret = -1 ∧
     (smbfs_file_lseek C fh offset whence errno0).err =
        some { domain := MC_ERROR, code := -1, message := lseekContractMsg } ∧
     (smbfs_file_lseek C fh offset whence errno0).smbc_calls = 0 ∧
     (smbfs_file_lseek C fh offset whence errno0).file_handler = fh ∧
     (smbfs_file_lseek C fh offset whence errno0).errno = errno0) ∧
    ((smbfs_file_stat C fh errno0).ret = -1 ∧
     (smbfs_file_stat C fh errno0).err =
        some { domain := MC_ERROR, code := -1, message := statContractMsg } ∧
     (smbfs_file_stat C fh errno0).smbc_calls = 0 ∧
     (smbfs_file_stat C fh errno0).file_handler = fh ∧
     (smbfs_file_stat C fh errno0).errno = errno0 ∧
     (smbfs_file_stat C fh errno0).buf = none) ∧
    ((smbfs_file_close C fh errno0).ret = -1 ∧
     (smbfs_file_close C fh errno0).err =
        some { domain := MC_ERROR, code := -1, message := closeContractMsg } ∧
     (smbfs_file_close C fh errno0).smbc_calls = 0 ∧
     (smbfs_file_close C fh errno0).file_handler = fh ∧
     (smbfs_file_close C fh errno0).errno = errno0 ∧
     (smbfs_file_close C fh errno0).freed = false) ∧
    ∀ e : Int, 0 < e → (-1 : Int) ≠ e := by
  match fh with
  | none =>
      refine ⟨⟨rfl, rfl, rfl, rfl, rfl, rfl⟩, ⟨rfl, rfl, rfl, rfl, rfl⟩,
        ⟨rfl, rfl, rfl, rfl, rfl⟩, ⟨rfl, rfl, rfl, rfl, rfl, rfl⟩,
        ⟨rfl, rfl, rfl, rfl, rfl, rfl⟩, fun e he => by omega⟩
  | some h =>
      have hd := hnull h rfl
      obtain ⟨p, d⟩ := h
      dsimp only at hd
      subst hd
      refine ⟨⟨rfl, rfl, rfl, rfl, rfl, rfl⟩, ⟨rfl, rfl, rfl, rfl, rfl⟩,
        ⟨rfl, rfl, rfl, rfl, rfl⟩, ⟨rfl, rfl, rfl, rfl, rfl, rfl⟩,
        ⟨rfl, rfl, rfl, rfl, rfl, rfl⟩, fun e he => by omega⟩

/-- Witness for C3: a handler with a null backend-state pointer. -/
theorem smbfs_contract_error_no_protocol_call_witness :
    fhNull.data = none ∧
    ((smbfs_file_read okClient (some fhNull) 5 7).ret = -1 ∧
     (smbfs_file_read okClient (some fhNull) 5 7).err =
        some { domain := MC_ERROR, code := -1, message := readContractMsg } ∧
     (smbfs_file_read okClient (some fhNull) 5 7).smbc_calls = 0 ∧
     (smbfs_file_read okClient (some fhNull) 5 7).file_handler = some fhNull ∧
     (smbfs_file_read okClient (some fhNull) 5 7).errno = 7 ∧
     (smbfs_file_read okClient (some fhNull) 5 7).buffer = none) ∧
    ((smbfs_file_write okClient (some fhNull) () 5 7).ret = -1 ∧
     (smbfs_file_write okClient (some fhNull) () 5 7).err =
        some { domain := MC_ERROR, code := -1, message := writeContractMsg } ∧
     (smbfs_file_write okClient (some fhNull) () 5 7).smbc_calls = 0 ∧
     (smbfs_file_write okClient (some fhNull) () 5 7).file_handler = some fhNull ∧
     (smbfs_file_write okClient (some fhNull) () 5 7).errno = 7) ∧
    ((smbfs_file_lseek okClient (some fhNull) 7 0 7).ret = -1 ∧
     (smbfs_file_lseek okClient (some fhNull) 7 0 7).err =
        some { domain := MC_ERROR, code := -1, message := lseekContractMsg } ∧
     (smbfs_file_lseek okClient (some fhNull) 7 0 7).smbc_calls = 0 ∧
     (smbfs_file_lseek okClient (some fhNull) 7 0 7).file_handler = some fhNull ∧
     (smbfs_file_lseek okClient (some fhNull) 7 0 7).errno = 7) ∧
    ((smbfs_file_stat okClient (some fhNull) 7).ret = -1 ∧
     (smbfs_file_stat okClient (some fhNull) 7).err =
        some { domain := MC_ERROR, code := -1, message := statContractMsg } ∧
     (smbfs_file_stat okClient (some fhNull) 7).smbc_calls = 0 ∧
     (smbfs_file_stat okClient (some fhNull) 7).file_handler = some fhNull ∧
     (smbfs_file_stat okClient (some fhNull) 7).errno = 7 ∧
     (smbfs_file_stat okClient (some fhNull) 7).buf = none) ∧
    ((smbfs_file_close okClient (some fhNull) 7).ret = -1 ∧
     (smbfs_file_close okClient (some fhNull) 7).err =
        some { domain := MC_ERROR, code := -1, message := closeContractMsg } ∧
     (smbfs_file_close okClient (some fhNull) 7).smbc_calls = 0 ∧
     (smbfs_file_close okClient (some fhNull) 7).file_handler = some fhNull ∧
     (smbfs_file_close okClient (some fhNull) 7).errno = 7 ∧
     (smbfs_file_close okClient (some fhNull) 7).freed = false) := by
  have h :=
    smbfs_contract_error_no_protocol_call okClient (some fhNull) () 5 7 0 7
      (fun h hh => by cases hh; rfl)
  exact ⟨rfl, h.1, h.2.1, h.2.2.1, h.2.2.2.1, h.2.2.2.2.1⟩

/-- C4: for every handle with non-null backend state, `smbfs_file_close`
frees the backend state exactly when the protocol close primitive
succeeds (returns ≥ 0); on a failing return it produces an error whose
code is the OS error value current after the failure and leaves the
backend state allocated. -/
theorem smbfs_close_frees_iff_success {buf stat : Type}
    (C : ProtocolClient buf stat) (fh : vfs_file_handler_t)
    (fhd : smbfs_file_handler_data_t) (errno0 : Int)
    (hdata : fh.data = some fhd) :
    ((smbfs_file_close C (some fh) errno0).freed = true ↔
        0 ≤ (C.smbc_close fhd.handle 0).1) ∧
    (0 ≤ (C.smbc_close fhd.handle 0).1 →
      (smbfs_file_close C (some fh) errno0).err = none ∧
      (smbfs_file_close C (some fh) errno0).ret = (C.smbc_close fhd.handle 0).1) ∧
    ((C.smbc_close fhd.handle 0).1 < 0 →
      (smbfs_file_close C (some fh) errno0).err =
        some { domain := MC_ERROR, code := (C.smbc_close fhd.handle 0).2,
               message := C.smbfs_strerror ((C.smbc_close fhd.handle 0).2) } ∧
      (smbfs_file_close C (some fh) errno0).freed = false ∧
      (smbfs_file_close C (some fh) errno0).ret = (C.smbc_close fhd.handle 0).1) := by
  obtain ⟨p, d⟩ := fh
  dsimp only at hdata
  subst hdata
  simp only [smbfs_file_close]
  by_cases hrc : (C.smbc_close fhd.handle 0).1 < 0
  · rw [if_pos hrc]
    refine ⟨⟨fun hf => by simp at hf, fun hge => absurd hge (not_le.mpr hrc)⟩,
      fun hge => absurd hge (not_le.mpr hrc), fun _ => ⟨rfl, rfl, rfl⟩⟩
  · rw [if_neg hrc]
    exact ⟨⟨fun _ => not_lt.mp hrc, fun _ => rfl⟩,
      fun _ => ⟨rfl, rfl⟩, fun hlt => absurd hlt hrc⟩

/-- Witness for C4: close on a concrete handler, with a succeeding
client (state freed, no error) and with a failing client (state kept,
error from the OS code). -/
theorem smbfs_close_frees_iff_success_witness :
    fhOk.data = some { handle := 3 } ∧
    (smbfs_file_close okClient (some fhOk) 7).freed = true ∧
    (smbfs_file_close okClient (some fhOk) 7).err = none ∧
    (smbfs_file_close okClient (some fhOk) 7).ret = (okClient.smbc_close 3 0).1 ∧
    (smbfs_file_close failClient (some fhOk) 7).err =
        some { domain := MC_ERROR, code := (failClient.smbc_close 3 0).2,
               message := failClient.smbfs_strerror ((failClient.smbc_close 3 0).2) } ∧
    (smbfs_file_close failClient (some fhOk) 7).freed = false ∧
    (smbfs_file_close failClient (some fhOk) 7).ret = (failClient.smbc_close 3 0).1 := by
  have hok := smbfs_close_frees_iff_success okClient fhOk { handle := 3 } 7 rfl
  have hfail :=
    (smbfs_close_frees_iff_success failClient fhOk { handle := 3 } 7 rfl).2.2 (by decide)
  exact ⟨rfl, hok.1.mpr (by decide), (hok.2.1 (by decide)).1, (hok.2.1 (by decide)).2,
    hfail.1, hfail.2.1, hfail.2.2⟩

/-- C6: `smbfs_file_open` returns a newly allocated backend state
wrapping the numeric handle exactly when the protocol open primitive
returns a non-negative handle; on a negative return it returns null and
produces an error carrying the OS error code current after the failure
and the backend-rendered message for that code. -/
theorem smbfs_open_wraps_handle {buf stat : Type}
    (C : ProtocolClient buf stat) (smb_url : String) (flags mode errno0 : Int) :
    (0 ≤ (C.smbc_open smb_url flags mode 0).1 →
      (smbfs_file_open C smb_url flags mode errno0).ret =
          some { handle := (C.smbc_open smb_url flags mode 0).1 } ∧
      (smbfs_file_open C smb_url flags mode errno0).err = none) ∧
    ((C.smbc_open smb_url flags mode 0).1 < 0 →
      (smbfs_file_open C smb_url flags mode errno0).ret = none ∧
      (smbfs_file_open C smb_url flags mode errno0).err =
        some { domain := MC_ERROR, code := (C.smbc_open smb_url flags mode 0).2,
               message := C.smbfs_strerror ((C.smbc_open smb_url flags mode 0).2) }) := by
  simp only [smbfs_file_open]
  constructor
  · intro hge
    rw [if_pos hge]
    exact ⟨rfl, rfl⟩
  · intro hlt
    rw [if_neg (not_le.mpr hlt)]
    exact ⟨rfl, rfl⟩

/-- Witness for C6: open on a concrete succeeding client (state wraps
the returned handle) and a concrete failing client (null state, error
from the OS code with the rendered message). -/
theorem smbfs_open_wraps_handle_witness :
    (smbfs_file_open okClient "smb://server/share/f" 0 0 7).ret =
        some { handle := (okClient.smbc_open "smb://server/share/f" 0 0 0).1 } ∧
    (smbfs_file_open okClient "smb://server/share/f" 0 0 7).err = none ∧
    (smbfs_file_open failClient "smb://server/share/f" 0 0 7).ret = none ∧
    (smbfs_file_open failClient "smb://server/share/f" 0 0 7).err =
        some { domain := MC_ERROR,
               code := (failClient.smbc_open "smb://server/share/f" 0 0 0).2,
               message := failClient.smbfs_strerror
                 ((failClient.smbc_open "smb://server/share/f" 0 0 0).2) } := by
  have hok :=
    (smbfs_open_wraps_handle okClient "smb://server/share/f" 0 0 7).1 (by decide)
  have hfail :=
    (smbfs_open_wraps_handle failClient "smb://server/share/f" 0 0 7).2 (by decide)
  exact ⟨hok.1, hok.2, hfail.1, hfail.2⟩

/-- C7: every operation handles the ambient OS error code per call: the
primitive is invoked with a freshly written `errno` (so the whole
outcome is independent of the ambient value before the call), and on a
failing primitive return the code placed in the produced error is the
`errno` value read after that return. -/
theorem smbfs_errno_captured_per_call {buf stat : Type}
    (C : ProtocolClient buf stat) (fh : vfs_file_handler_t)
    (fhd : smbfs_file_handler_data_t) (smb_url : String) (buffer : buf)
    (count : Nat) (flags mode offset whence errno0 errno1 : Int)
    (hdata : fh.data = some fhd) :
    (smbfs_file_open C smb_url flags mode errno0 =
        smbfs_file_open C smb_url flags mode errno1 ∧
     ((C.smbc_open smb_url flags mode 0).1 < 0 →
       (smbfs_file_open C smb_url flags mode errno0).err.map GError.code =
         some (C.smbc_open smb_url flags mode 0).2)) ∧
    (smbfs_file_read C (some fh) count errno0 =
        smbfs_file_read C (some fh) count errno1 ∧
     ((C.smbc_read fhd.handle count 0).1 < 0 →
       (smbfs_file_read C (some fh) count errno0).err.map GError.code =
         some (C.smbc_read fhd.handle count 0).2.1)) ∧
    (smbfs_file_write C (some fh) buffer count errno0 =
        smbfs_file_write C (some fh) buffer count errno1 ∧
     ((C.smbc_write fhd.handle buffer count 0).1 < 0 →
       (smbfs_file_write C (some fh) buffer count errno0).err.map GError.code =
         some (C.smbc_write fhd.handle buffer count 0).2)) ∧
    (smbfs_file_lseek C (some fh) offset whence errno0 =
        smbfs_file_lseek C (some fh) offset whence errno1 ∧
     ((C.smbc_lseek fhd.handle offset whence 0).1 = -1 →
       (smbfs_file_lseek C (some fh) offset whence errno0).err.map GError.code =
         some (C.smbc_lseek fhd.handle offset whence 0).2)) ∧
    (smbfs_file_stat C (some fh) errno0 = smbfs_file_stat C (some fh) errno1 ∧
     ((C.smbc_fstat fhd.handle 0).1 < 0 →
       (smbfs_file_stat C (some fh) errno0).err.map GError.code =
         some (C.smbc_fstat fhd.handle 0).2.1)) ∧
    (smbfs_file_close C (some fh) errno0 = smbfs_file_close C (some fh) errno1 ∧
     ((C.smbc_close fhd.handle 0).1 < 0 →
       (smbfs_file_close C (some fh) errno0).err.map GError.code =
         some (C.smbc_close fhd.handle 0).2)) := by
  obtain ⟨p, d⟩ := fh
  dsimp only at hdata
  subst hdata
  refine ⟨⟨rfl, fun h => ?_⟩, ⟨rfl, fun h => ?_⟩, ⟨rfl, fun h => ?_⟩,
    ⟨rfl, fun h => ?_⟩, ⟨rfl, fun h => ?_⟩, ⟨rfl, fun h => ?_⟩⟩
  · simp only [smbfs_file_open]
    rw [if_neg (not_le.mpr h)]
    rfl
  · simp only [smbfs_file_read]
    rw [if_pos h]
    rfl
  · simp only [smbfs_file_write]
    rw [if_pos h]
    rfl
  · simp only [smbfs_file_lseek]
    rw [if_pos h]
    rfl
  · simp only [smbfs_file_stat]
    rw [if_pos h]
    rfl
  · simp only [smbfs_file_close]
    rw [if_pos h]
    rfl

/-- Witness for C7: all six operations on the failing concrete client,
with two different ambient errno values 5 and 9. -/
theorem smbfs_errno_captured_per_call_witness :
    fhOk.data = some { handle := 3 } ∧
    smbfs_file_open failClient "smb://s/f" 0 0 5 =
        smbfs_file_open failClient "smb://s/f" 0 0 9 ∧
    (smbfs_file_open failClient "smb://s/f" 0 0 5).err.map GError.code =
        some (failClient.smbc_open "smb://s/f" 0 0 0).2 ∧
    smbfs_file_read failClient (some fhOk) 5 5 =
        smbfs_file_read failClient (some fhOk) 5 9 ∧
    (smbfs_file_read failClient (some fhOk) 5 5).err.map GError.code =
        some (failClient.smbc_read 3 5 0).2.1 ∧
    smbfs_file_write failClient (some fhOk) () 5 5 =
        smbfs_file_write failClient (some fhOk) () 5 9 ∧
    (smbfs_file_write failClient (some fhOk) () 5 5).err.map GError.code =
        some (failClient.smbc_write 3 () 5 0).2 ∧
    smbfs_file_lseek failClient (some fhOk) 7 0 5 =
        smbfs_file_lseek failClient (some fhOk) 7 0 9 ∧
    (smbfs_file_lseek failClient (some fhOk) 7 0 5).err.map GError.code =
        some (failClient.smbc_lseek 3 7 0 0).2 ∧
    smbfs_file_stat failClient (some fhOk) 5 = smbfs_file_stat failClient (some fhOk) 9 ∧
    (smbfs_file_stat failClient (some fhOk) 5).err.map GError.code =
        some (failClient.smbc_fstat 3 0).2.1 ∧
    smbfs_file_close failClient (some fhOk) 5 =
        smbfs_file_close failClient (some fhOk) 9 ∧
    (smbfs_file_close failClient (some fhOk) 5).err.map GError.code =
        some (failClient.smbc_close 3 0).2 := by
  have h :=
    smbfs_errno_captured_per_call failClient fhOk { handle := 3 } "smb://s/f" () 5
      0 0 7 0 5 9 rfl
  exact ⟨rfl, h.1.1, h.1.2 (by decide), h.2.1.1, h.2.1.2 (by decide),
    h.2.2.1.1, h.2.2.1.2 (by decide), h.2.2.2.1.1, h.2.2.2.1.2 (by decide),
    h.2.2.2.2.1.1, h.2.2.2.2.1.2 (by decide),
    h.2.2.2.2.2.1, h.2.2.2.2.2.2 (by decide)⟩

/-- C8 counterexample: the missing-handle contract messages of Write and
Seek do NOT identify those operations — on a concrete handler with a
null backend state both produce exactly Stat's message, the one
mentioning fstat, so distinct operations share one fixed message. -/
theorem smbfs_contract_messages_collide :
    (smbfs_file_write okClient (some fhNull) () 5 7).err =
        some { domain := MC_ERROR, code := -1, message := statContractMsg } ∧
    (smbfs_file_lseek okClient (some fhNull) 7 0 7).err =
        some { domain := MC_ERROR, code := -1, message := statContractMsg } ∧
    (smbfs_file_write okClient (some fhNull) () 5 7).err.map GError.message =
        (smbfs_file_stat okClient (some fhNull) 7).err.map GError.message ∧
    (smbfs_file_lseek okClient (some fhNull) 7 0 7).err.map GError.message =
        (smbfs_file_stat okClient (some fhNull) 7).err.map GError.message :=
  ⟨rfl, rfl, rfl, rfl⟩

/-- C8 amended: each operation's contract error carries a fixed
message, but only Read and Close have messages of their own; Write,
Seek and Stat all carry the identical message mentioning fstat, so the
message distinguishes Read, Close and the Write/Seek/Stat group, not
every pair of distinct operations. -/
theorem smbfs_contract_messages_fixed {buf stat : Type}
    (C : ProtocolClient buf stat) (fh : Option vfs_file_handler_t)
    (buffer : buf) (count : Nat) (offset whence errno0 : Int)
    (hnull : ∀ h, fh = some h → h.data = none) :
    (smbfs_file_read C fh count errno0).err.map GError.message =
        some readContractMsg ∧
    (smbfs_file_close C fh errno0).err.map GError.message =
        some closeContractMsg ∧
    (smbfs_file_stat C fh errno0).err.map GError.message =
        some statContractMsg ∧
    (smbfs_file_write C fh buffer count errno0).err.map GError.message =
        some writeContractMsg ∧
    (smbfs_file_lseek C fh offset whence errno0).err.map GError.message =
        some lseekContractMsg ∧
    readContractMsg ≠ closeContractMsg ∧
    readContractMsg ≠ statContractMsg ∧
    closeContractMsg ≠ statContractMsg ∧
    writeContractMsg = statContractMsg ∧
    lseekContractMsg = statContractMsg := by
  match fh with
  | none =>
      exact ⟨rfl, rfl, rfl, rfl, rfl, by decide, by decide, by decide, rfl, rfl⟩
  | some h =>
      have hd := hnull h rfl
      obtain ⟨p, d⟩ := h
      dsimp only at hd
      subst hd
      exact ⟨rfl, rfl, rfl, rfl, rfl, by decide, by decide, by decide, rfl, rfl⟩

/-- Witness for the amended C8: the five operations on a concrete
handler with a null backend state. -/
theorem smbfs_contract_messages_fixed_witness :
    fhNull.data = none ∧
    (smbfs_file_read okClient (some fhNull) 5 7).err.map GError.message =
        some readContractMsg ∧
    (smbfs_file_close okClient (some fhNull) 7).err.map GError.message =
        some closeContractMsg ∧
    (smbfs_file_stat okClient (some fhNull) 7).err.map GError.message =
        some statContractMsg ∧
    (smbfs_file_write okClient (some fhNull) () 5 7).err.map GError.message =
        some writeContractMsg ∧
    (smbfs_file_lseek okClient (some fhNull) 7 0 7).err.map GError.message =
        some lseekContractMsg ∧
    readContractMsg ≠ closeContractMsg ∧
    readContractMsg ≠ statContractMsg ∧
    closeContractMsg ≠ statContractMsg ∧
    writeContractMsg = statContractMsg ∧
    lseekContractMsg = statContractMsg := by
  have h :=
    smbfs_contract_messages_fixed okClient (some fhNull) () 5 7 0 7
      (fun h hh => by cases hh; rfl)
  exact ⟨rfl, h.1, h.2.1, h.2.2.1, h.2.2.2.1, h.2.2.2.2.1, h.2.2.2.2.2.1,
    h.2.2.2.2.2.2.1, h.2.2.2.2.2.2.2.1, h.2.2.2.2.2.2.2.2.1, h.2.2.2.2.2.2.2.2.2⟩

/-- C10: on a missing-handle contract error, each of the five
handle-taking operations returns -1 — the same function result a
protocol failure returning -1 produces — and both error kinds carry the
`MC_ERROR` domain; the only field telling them apart is the error's
numeric code, the -1 sentinel for a contract error versus the
(non-negative) OS errno for a protocol error. -/
theorem smbfs_error_kinds_distinguished_by_code {buf stat : Type}
    (C : ProtocolClient buf stat) (hNull hData : vfs_file_handler_t)
    (fhd : smbfs_file_handler_data_t) (buffer : buf) (count : Nat)
    (offset whence errno0 : Int)
    (eread ewrite elseek estat eclose : Int) (b : buf) (st : stat)
    (hn : hNull.data = none) (hd : hData.data = some fhd)
    (hr : C.smbc_read fhd.handle count 0 = (-1, eread, b))
    (hw : C.smbc_write fhd.handle buffer count 0 = (-1, ewrite))
    (hl : C.smbc_lseek fhd.handle offset whence 0 = (-1, elseek))
    (hs : C.smbc_fstat fhd.handle 0 = (-1, estat, st))
    (hc : C.smbc_close fhd.handle 0 = (-1, eclose))
    (hre : 0 ≤ eread) (hwe : 0 ≤ ewrite) (hle : 0 ≤ elseek)
    (hse : 0 ≤ estat) (hce : 0 ≤ eclose) :
    ((smbfs_file_read C (some hNull) count errno0).ret = -1 ∧
     (smbfs_file_read C (some hNull) count errno0).err =
        some { domain := MC_ERROR, code := -1, message := readContractMsg } ∧
     (smbfs_file_read C (some hData) count errno0).ret = -1 ∧
     (smbfs_file_read C (some hData) count errno0).err =
        some { domain := MC_ERROR, code := eread,
               message := C.smbfs_strerror eread } ∧
     eread ≠ -1) ∧
    ((smbfs_file_write C (some hNull) buffer count errno0).ret = -1 ∧
     (smbfs_file_write C (some hNull) buffer count errno0).err =
        some { domain := MC_ERROR, code := -1, message := writeContractMsg } ∧
     (smbfs_file_write C (some hData) buffer count errno0).ret = -1 ∧
     (smbfs_file_write C (some hData) buffer count errno0).err =
        some { domain := MC_ERROR, code := ewrite,
               message := C.smbfs_strerror ewrite } ∧
     ewrite ≠ -1) ∧
    ((smbfs_file_lseek C (some hNull) offset whence errno0).ret = -1 ∧
     (smbfs_file_lseek C (some hNull) offset whence errno0).err =
        some { domain := MC_ERROR, code := -1, message := lseekContractMsg } ∧
     (smbfs_file_lseek C (some hData) offset whence errno0).ret = -1 ∧
     (smbfs_file_lseek C (some hData) offset whence errno0).err =
        some { domain := MC_ERROR, code := elseek,
               message := C.smbfs_strerror elseek } ∧
     elseek ≠ -1) ∧
    ((smbfs_file_stat C (some hNull) errno0).ret = -1 ∧
     (smbfs_file_stat C (some hNull) errno0).err =
        some { domain := MC_ERROR, code := -1, message := statContractMsg } ∧
     (smbfs_file_stat C (some hData) errno0).ret = -1 ∧
     (smbfs_file_stat C (some hData) errno0).err =
        some { domain := MC_ERROR, code := estat,
               message := C.smbfs_strerror estat } ∧
     estat ≠ -1) ∧
    ((smbfs_file_close C (some hNull) errno0).ret = -1 ∧
     (smbfs_file_close C (some hNull) errno0).err =
        some { domain := MC_ERROR, code := -1, message := closeContractMsg } ∧
     (smbfs_file_close C (some hData) errno0).ret = -1 ∧
     (smbfs_file_close C (some hData) errno0).err =
        some { domain := MC_ERROR, code := eclose,
               message := C.smbfs_strerror eclose } ∧
     eclose ≠ -1) := by
  obtain ⟨pn, dn⟩ := hNull
  dsimp only at hn
  subst hn
  obtain ⟨pd, dd⟩ := hData
  dsimp only at hd
  subst hd
  refine ⟨⟨rfl, rfl, ?_, ?_, by omega⟩, ⟨rfl, rfl, ?_, ?_, by omega⟩,
    ⟨rfl, rfl, ?_, ?_, by omega⟩, ⟨rfl, rfl, ?_, ?_, by omega⟩,
    ⟨rfl, rfl, ?_, ?_, by omega⟩⟩
  all_goals
    simp only [smbfs_file_read, smbfs_file_write, smbfs_file_lseek,
      smbfs_file_stat, smbfs_file_close, hr, hw, hl, hs, hc]
  all_goals rfl

/-- Witness for C10: both error kinds on concrete handlers, with the
uniformly failing client (errno 13). -/
theorem smbfs_error_kinds_distinguished_by_code_witness :
    fhNull.data = none ∧
    fhOk.data = some { handle := 3 } ∧
    (smbfs_file_read failClient (some fhNull) 5 7).ret = -1 ∧
    (smbfs_file_read failClient (some fhNull) 5 7).err =
        some { domain := MC_ERROR, code := -1, message := readContractMsg } ∧
    (smbfs_file_read failClient (some fhOk) 5 7).ret = -1 ∧
    (smbfs_file_read failClient (some fhOk) 5 7).err =
        some { domain := MC_ERROR, code := 13,
               message := failClient.smbfs_strerror 13 } ∧
    (13 : Int) ≠ -1 ∧
    (smbfs_file_close failClient (some fhNull) 7).ret = -1 ∧
    (smbfs_file_close failClient (some fhNull) 7).err =
        some { domain := MC_ERROR, code := -1, message := closeContractMsg } ∧
    (smbfs_file_close failClient (some fhOk) 7).ret = -1 ∧
    (smbfs_file_close failClient (some fhOk) 7).err =
        some { domain := MC_ERROR, code := 13,
               message := failClient.smbfs_strerror 13 } := by
  have h :=
    smbfs_error_kinds_distinguished_by_code failClient fhNull fhOk { handle := 3 }
      () 5 7 0 7 13 13 13 13 13 () () rfl rfl rfl rfl rfl rfl rfl
      (by decide) (by decide) (by decide) (by decide) (by decide)
  exact ⟨rfl, rfl, h.1.1, h.1.2.1, h.1.2.2.1, h.1.2.2.2.1, h.1.2.2.2.2,
    h.2.2.2.2.1, h.2.2.2.2.2.1, h.2.2.2.2.2.2.1, h.2.2.2.2.2.2.2.1⟩

end Smbfs
